import Mathlib

/-!
Verification of the `ssh-relay` status-reporter header
(`src/Particle/ssh-relay/ssh_relay.h`) and of the StatusReporter design it
declares.  The header itself contains only macro constants and four function
prototypes; the operational behaviour (counter updates, the status state
machine, the publish routine, the IP formatting helper) is modelled from the
specification, since its implementation is not part of the provided sources.
-/

namespace SshRelay

/-! ## Constants from the header -/

/-- `#define PUBLISH_PERIOD 60000` (comment in the source claims "1 hour"). -/
def PUBLISH_PERIOD : Nat := 60000

/-- `#define STATUS_INIT 0` -/
def STATUS_INIT : Nat := 0

/-- `#define STATUS_DISCONNECTED 1` -/
def STATUS_DISCONNECTED : Nat := 1

/-- `#define STATUS_CONNECTED 2` -/
def STATUS_CONNECTED : Nat := 2

/-- `#define STATUS_SSH_SESSION 3` -/
def STATUS_SSH_SESSION : Nat := 3

/-- `#define NAME_STATUS "status"` -/
def NAME_STATUS : String := "status"

/-- `#define NAME_CONN_ATTEMPTS "attempts"` -/
def NAME_CONN_ATTEMPTS : String := "attempts"

/-- `#define NAME_CONN_ACCEPT "accepted"` -/
def NAME_CONN_ACCEPT : String := "accepted"

/-- `#define NAME_CONN_REJECT "rejected"` -/
def NAME_CONN_REJECT : String := "rejected"

/-- `#define NAME_LOCAL_IP_ADDR "local_ip"` -/
def NAME_LOCAL_IP_ADDR : String := "local_ip"

/-- `#define NAME_PUBLIC_IP_ADDR "public_ip"` -/
def NAME_PUBLIC_IP_ADDR : String := "public_ip"

/-- `#define NAME_PUBLIC_IP_TOPIC "spark/device/ip"` -/
def NAME_PUBLIC_IP_TOPIC : String := "spark/device/ip"

/-- `#define NAME_GET_PUBLIC_IP "get_ip"` -/
def NAME_GET_PUBLIC_IP : String := "get_ip"

/-! ## Data model -/

/-- Modelled from the spec: the connection-phase enum
`{Init, Disconnected, Connected, SshSession}`; the numeric codes are the
`STATUS_*` macros of the header. -/
inductive Status where
  | init
  | disconnected
  | connected
  | sshSession
deriving DecidableEq, Repr

/-- The numeric encoding of `Status`, following the `STATUS_*` macros of the
header (`STATUS_INIT 0` .. `STATUS_SSH_SESSION 3`). -/
def statusCode : Status → Nat
  | .init => STATUS_INIT
  | .disconnected => STATUS_DISCONNECTED
  | .connected => STATUS_CONNECTED
  | .sshSession => STATUS_SSH_SESSION

/-- Modelled from the spec: `DeviceState` (the header only declares the
telemetry names; the state record is taken from §3 of the design). -/
structure DeviceState where
  status : Status
  connectionAttempts : Nat
  connectionsAccepted : Nat
  connectionsRejected : Nat
  localIpAddress : String
  publicIpAddress : String
deriving DecidableEq, Repr

/-- Modelled from the spec: the boot state — `status = Init`, all counters
zero, no addresses known yet. -/
def initialDeviceState : DeviceState :=
  { status := .init
    connectionAttempts := 0
    connectionsAccepted := 0
    connectionsRejected := 0
    localIpAddress := ""
    publicIpAddress := "" }

/-! ## StatusReporter operations (modelled from the spec §4.1) -/

/-- Modelled from the spec: `recordAttempt()` increments `connectionAttempts`;
the implementation is not in the provided sources. -/
def recordAttempt (s : DeviceState) : DeviceState :=
  { s with connectionAttempts := s.connectionAttempts + 1 }

/-- Modelled from the spec: `recordAccepted()` increments
`connectionsAccepted`; the implementation is not in the provided sources. -/
def recordAccepted (s : DeviceState) : DeviceState :=
  { s with connectionsAccepted := s.connectionsAccepted + 1 }

/-- Modelled from the spec: `recordRejected()` increments
`connectionsRejected`; the implementation is not in the provided sources. -/
def recordRejected (s : DeviceState) : DeviceState :=
  { s with connectionsRejected := s.connectionsRejected + 1 }

/-- Modelled from the spec: `setLocalIp(addr)` stores the local network
address string; the implementation is not in the provided sources. -/
def setLocalIp (s : DeviceState) (addr : String) : DeviceState :=
  { s with localIpAddress := addr }

/-- Modelled from the spec: `setPublicIp(addr)` stores the externally
resolved address string; the implementation is not in the provided sources. -/
def setPublicIp (s : DeviceState) (addr : String) : DeviceState :=
  { s with publicIpAddress := addr }

/-- The counter invariant stated in §3 of the design:
`connectionsAccepted + connectionsRejected <= connectionAttempts`. -/
def counterInvariant (s : DeviceState) : Prop :=
  s.connectionsAccepted + s.connectionsRejected ≤ s.connectionAttempts

instance (s : DeviceState) : Decidable (counterInvariant s) := by
  unfold counterInvariant; infer_instance

/-- The three counter-recording calls, as events of a call sequence. -/
inductive Op where
  | attempt
  | accepted
  | rejected
deriving DecidableEq, Repr, BEq

/-- Apply one recorded call to the device state. -/
def applyOp (s : DeviceState) : Op → DeviceState
  | .attempt => recordAttempt s
  | .accepted => recordAccepted s
  | .rejected => recordRejected s

/-- Run a sequence of recording calls from a given state. -/
def run (s : DeviceState) (ops : List Op) : DeviceState :=
  ops.foldl applyOp s

/-- The number of occurrences of a given call in a call sequence. -/
def countOp (o : Op) : List Op → Nat
  | [] => 0
  | x :: rest => (if x = o then 1 else 0) + countOp o rest

/-! ## The status state machine (modelled from the spec §4) -/

/-- Modelled from the spec: the `status` transition relation of §4 —
`Init → Disconnected`, `Disconnected → Connected`, `Connected → SshSession`,
and `SshSession/Connected → Disconnected` on link loss.  The transition code
is not in the provided sources; only the `STATUS_*` codes are. -/
def statusStep : Status → Status → Bool
  | .init, .disconnected => true
  | .disconnected, .connected => true
  | .connected, .sshSession => true
  | .connected, .disconnected => true
  | .sshSession, .disconnected => true
  | _, _ => false

/-- A list of successive states is a valid trace from `s` when every
consecutive pair is a `statusStep` transition. -/
def validTrace : Status → List Status → Bool
  | _, [] => true
  | s, t :: rest => statusStep s t && validTrace t rest

/-! ## Publishing (modelled from the spec §4.1 and §6) -/

/-- A published telemetry value: `status` is published as an integer, the
other fields as strings (spec §6 table). -/
inductive TValue where
  | int (n : Nat)
  | str (s : String)
deriving DecidableEq, Repr

/-- Modelled from the spec: the batch of name/value telemetry events emitted
by `publish_updates` — the six fields of the §6 table, under the `NAME_*`
labels of the header.  The body of `publish_updates` is not in the provided
sources; only its prototype and the field-name macros are. -/
def publishEvents (s : DeviceState) : List (String × TValue) :=
  [(NAME_STATUS, .int (statusCode s.status)),
   (NAME_CONN_ATTEMPTS, .str (Nat.repr s.connectionAttempts)),
   (NAME_CONN_ACCEPT, .str (Nat.repr s.connectionsAccepted)),
   (NAME_CONN_REJECT, .str (Nat.repr s.connectionsRejected)),
   (NAME_LOCAL_IP_ADDR, .str s.localIpAddress),
   (NAME_PUBLIC_IP_ADDR, .str s.publicIpAddress)]

/-- The world a publish acts on: the device state plus the log of events
already handed to the cloud transport. -/
structure World where
  dev : DeviceState
  published : List (String × TValue)
deriving DecidableEq, Repr

/-- Modelled from the spec: `publish_updates` reads the device state and
appends its six telemetry events to the publish log; "Side effect: none on
DeviceState; this is a pure read-and-emit". -/
def publish_updates (w : World) : World :=
  { dev := w.dev, published := w.published ++ publishEvents w.dev }

/-! ## IP formatting (modelled from the spec §6) and dotted-quad parsing -/

/-- A 4-octet binary network address, the argument type of `ip_to_string`. -/
structure IPAddress where
  o1 : Nat
  o2 : Nat
  o3 : Nat
  o4 : Nat
deriving DecidableEq, Repr

/-- Each octet fits in one byte. -/
def IPAddress.Valid (a : IPAddress) : Prop :=
  a.o1 < 256 ∧ a.o2 < 256 ∧ a.o3 < 256 ∧ a.o4 < 256

instance (a : IPAddress) : Decidable a.Valid := by
  unfold IPAddress.Valid; infer_instance

/-- Modelled from the spec: `ip_to_string(addr)` converts a 4-octet binary
network address into its dotted-decimal textual form; the body is not in the
provided sources, only the prototype `String ip_to_string(IPAddress);`. -/
def ip_to_string (a : IPAddress) : String :=
  Nat.repr a.o1 ++ "." ++ Nat.repr a.o2 ++ "." ++ Nat.repr a.o3 ++ "." ++
    Nat.repr a.o4

/-- The numeric value of a decimal digit character. -/
def digitVal (c : Char) : Nat := c.toNat - 48

/-- The value of a run of digit characters, with an accumulator. -/
def digitsVal (acc : Nat) (ds : List Char) : Nat :=
  ds.foldl (fun a c => a * 10 + digitVal c) acc

/-- Consume a maximal run of decimal digits, accumulating their value. -/
def readDigits (acc : Nat) : List Char → Nat × List Char
  | [] => (acc, [])
  | c :: cs =>
    if c.isDigit then readDigits (acc * 10 + digitVal c) cs else (acc, c :: cs)

/-- Parse one decimal octet (at least one digit, value at most 255). -/
def parseOctet : List Char → Option (Nat × List Char)
  | [] => none
  | c :: cs =>
    if c.isDigit then
      match readDigits (digitVal c) cs with
      | (n, rest) => if n ≤ 255 then some (n, rest) else none
    else none

/-- Consume one literal dot. -/
def expectDot : List Char → Option (List Char)
  | '.' :: cs => some cs
  | _ => none

/-- Parse a full dotted-quad string `a.b.c.d` into its four octets,
requiring the whole string to be consumed. -/
def parseDottedQuad (s : String) : Option IPAddress :=
  match parseOctet s.data with
  | none => none
  | some (a, r1) =>
    match expectDot r1 with
    | none => none
    | some r2 =>
      match parseOctet r2 with
      | none => none
      | some (b, r3) =>
        match expectDot r3 with
        | none => none
        | some r4 =>
          match parseOctet r4 with
          | none => none
          | some (c, r5) =>
            match expectDot r5 with
            | none => none
            | some r6 =>
              match parseOctet r6 with
              | none => none
              | some (d, r7) =>
                match r7 with
                | [] => some ⟨a, b, c, d⟩
                | _ => none

/-- Boolean certificate that `Nat.repr` of a byte value is a nonempty run of
digit characters whose decimal value is the number itself. -/
def octetReprOk (n : Nat) : Bool :=
  match (Nat.repr n).data with
  | [] => false
  | c :: ds =>
    c.isDigit && ds.all (fun x => x.isDigit) &&
      (digitsVal (digitVal c) ds == n)

/-! ## The declared C interface of the header -/

/-- The C types appearing in the prototypes of `ssh_relay.h`. -/
inductive CType where
  | void
  | int
  | string
  | ipAddress
  | constCharPtr
deriving DecidableEq, Repr

/-- A C function declaration: name, argument types, return type. -/
structure CDecl where
  name : String
  args : List CType
  ret : CType
deriving DecidableEq, Repr

/-- The four prototypes declared in `ssh_relay.h`:
`void publish_updates(void); String ip_to_string(IPAddress);
void handler(const char*, const char*); int get_public_ip(String);` -/
def headerDecls : List CDecl :=
  [⟨"publish_updates", [], .void⟩,
   ⟨"ip_to_string", [.ipAddress], .string⟩,
   ⟨"handler", [.constCharPtr, .constCharPtr], .void⟩,
   ⟨"get_public_ip", [.string], .int⟩]

theorem run_counts (ops : List Op) :
    ∀ s : DeviceState,
      (run s ops).connectionAttempts =
          s.connectionAttempts + countOp .attempt ops ∧
      (run s ops).connectionsAccepted =
          s.connectionsAccepted + countOp .accepted ops ∧
      (run s ops).connectionsRejected =
          s.connectionsRejected + countOp .rejected ops := by
  induction ops with
  | nil => intro s; simp [run, countOp]
  | cons o rest ih =>
    intro s
    have h := ih (applyOp s o)
    cases o <;>
      simp [run, countOp, applyOp, recordAttempt, recordAccepted,
        recordRejected] at h ⊢ <;>
      omega

set_option maxRecDepth 10000 in
theorem octetReprOk_all : ∀ n : Fin 256, octetReprOk n.val = true := by
  decide

theorem readDigits_append (ds : List Char) :
    ∀ (acc : Nat) (rest : List Char),
      (∀ c ∈ ds, c.isDigit = true) →
      (∀ c, rest.head? = some c → c.isDigit = false) →
      readDigits acc (ds ++ rest) = (digitsVal acc ds, rest) := by
  induction ds with
  | nil =>
    intro acc rest _ hrest
    cases rest with
    | nil => rfl
    | cons c cs =>
      have hc : c.isDigit = false := hrest c rfl
      simp [readDigits, hc, digitsVal]
  | cons d ds ih =>
    intro acc rest hds hrest
    have hd : d.isDigit = true := hds d (List.mem_cons_self _ _)
    have hds' : ∀ c ∈ ds, c.isDigit = true := fun c hc =>
      hds c (List.mem_cons_of_mem _ hc)
    simp only [List.cons_append, readDigits, hd, if_true]
    exact ih (acc * 10 + digitVal d) rest hds' hrest

theorem parseOctet_repr (n : Nat) (hn : n < 256) (rest : List Char)
    (hrest : ∀ c, rest.head? = some c → c.isDigit = false) :
    parseOctet ((Nat.repr n).data ++ rest) = some (n, rest) := by
  have hok : octetReprOk n = true := octetReprOk_all ⟨n, hn⟩
  unfold octetReprOk at hok
  cases hrepr : (Nat.repr n).data with
  | nil => rw [hrepr] at hok; exact absurd hok (by simp)
  | cons c ds =>
    rw [hrepr] at hok
    simp only [Bool.and_eq_true, beq_iff_eq, List.all_eq_true] at hok
    obtain ⟨⟨hc, hds⟩, hval⟩ := hok
    simp only [List.cons_append, parseOctet, hc, if_true]
    rw [readDigits_append ds (digitVal c) rest hds hrest, hval]
    rw [if_pos (by omega)]

theorem head_dot_not_digit (xs : List Char) :
    ∀ c, (('.' :: xs).head?) = some c → c.isDigit = false := by
  intro c hc
  simp only [List.head?_cons, Option.some.injEq] at hc
  rw [← hc]
  decide

theorem head_nil_not_digit :
    ∀ c : Char, ([] : List Char).head? = some c → c.isDigit = false := by
  intro c hc
  simp at hc

/-! ## Claim theorems -/

/-- Claim C1, as stated, is false on the modelled operations: the single-call
sequence consisting of one `recordAccepted` yields `accepted = 1` while
`attempts = 0`, violating `accepted + rejected <= attempts`. -/
theorem c1_counterexample :
    ¬ counterInvariant (run initialDeviceState [Op.accepted]) := by
  decide

/-- Claim C1 (amended): for every sequence of `recordAttempt`,
`recordAccepted`, `recordRejected` calls from the initial `DeviceState` in
which the accepted- and rejected-calls together do not outnumber the
attempt-calls, the invariant `connectionsAccepted + connectionsRejected <=
connectionAttempts` holds after the sequence; applying this to every prefix
of a sequence whose prefixes are all so balanced gives the invariant after
each call. -/
theorem c1_invariant_of_balanced (ops : List Op)
    (h : countOp .accepted ops + countOp .rejected ops ≤
      countOp .attempt ops) :
    counterInvariant (run initialDeviceState ops) := by
  obtain ⟨h1, h2, h3⟩ := run_counts ops initialDeviceState
  unfold counterInvariant
  rw [h1, h2, h3]
  simp only [initialDeviceState]
  omega

/-- Witness for C1 (amended) at the concrete sequence
`[recordAttempt, recordAccepted]`. -/
theorem c1_witness :
    counterInvariant (run initialDeviceState [Op.attempt, Op.accepted]) :=
  c1_invariant_of_balanced [Op.attempt, Op.accepted] (by decide)

/-- Claim C2: `publishUpdates` emits exactly six named fields whatever the
device state, with names exactly `status`, `attempts`, `accepted`,
`rejected`, `local_ip`, `public_ip` (the `NAME_*` macros of the header). -/
theorem c2_publish_field_names (s : DeviceState) :
    (publishEvents s).length = 6 ∧
    (publishEvents s).map Prod.fst =
      [NAME_STATUS, NAME_CONN_ATTEMPTS, NAME_CONN_ACCEPT, NAME_CONN_REJECT,
       NAME_LOCAL_IP_ADDR, NAME_PUBLIC_IP_ADDR] ∧
    (publishEvents s).map Prod.fst =
      ["status", "attempts", "accepted", "rejected", "local_ip",
       "public_ip"] :=
  ⟨rfl, rfl, rfl⟩

/-- Claim C4: the publish period constant equals 60000 time units — one
minute under a millisecond clock, not one hour (despite the source
comment). -/
theorem c4_publish_period :
    PUBLISH_PERIOD = 60000 ∧
    PUBLISH_PERIOD = 60 * 1000 ∧
    PUBLISH_PERIOD ≠ 60 * 60 * 1000 := by
  decide

/-- Claim C5: `status` never steps directly from `SshSession` to `Init`; the
only transition out of `SshSession` is to `Disconnected`, so every nonempty
trace from `SshSession` (in particular any that would reach `Init`) passes
through `Disconnected`. -/
theorem c5_no_direct_ssh_to_init :
    statusStep .sshSession .init = false ∧
    (∀ t : Status, statusStep .sshSession t = true → t = .disconnected) ∧
    (∀ l : List Status, validTrace .sshSession l = true → l ≠ [] →
      Status.disconnected ∈ l) := by
  refine ⟨rfl, ?_, ?_⟩
  · intro t ht
    cases t <;> first | rfl | simp [statusStep] at ht
  · intro l hl hne
    cases l with
    | nil => exact absurd rfl hne
    | cons t rest =>
      have ht : statusStep .sshSession t = true := by
        have := hl
        simp only [validTrace, Bool.and_eq_true] at this
        exact this.1
      have hd : t = .disconnected := by
        cases t <;> first | rfl | simp [statusStep] at ht
      rw [hd]
      exact List.mem_cons_self _ _

/-- Witness for C5 at the concrete one-step trace
`SshSession → Disconnected`. -/
theorem c5_witness : Status.disconnected ∈ [Status.disconnected] :=
  c5_no_direct_ssh_to_init.2.2 [Status.disconnected] (by decide) (by decide)

/-- Claim C6: `publishUpdates` leaves every field of the device state
unchanged — it only appends to the publish log. -/
theorem c6_publish_preserves_state (w : World) :
    (publish_updates w).dev = w.dev :=
  rfl

/-- Claim C7: the value published under the field name `status` is the
integer `statusCode` of the current status, the codes are exactly
`Init ↦ 0, Disconnected ↦ 1, Connected ↦ 2, SshSession ↦ 3` (the `STATUS_*`
macros), and the code always lies in the range 0–3. -/
theorem c7_status_field_encoding (s : DeviceState) :
    List.lookup NAME_STATUS (publishEvents s) =
      some (TValue.int (statusCode s.status)) ∧
    statusCode s.status ≤ 3 ∧
    statusCode .init = 0 ∧
    statusCode .disconnected = 1 ∧
    statusCode .connected = 2 ∧
    statusCode .sshSession = 3 := by
  refine ⟨rfl, ?_, rfl, rfl, rfl, rfl⟩
  cases s.status <;> decide

/-- Claim C8: from the boot state, `setLocalIp "10.0.0.5"` leaves `status`
at `Init`, and the next `publishUpdates` emission carries `"10.0.0.5"`
under the field name `local_ip`. -/
theorem c8_set_local_ip_scenario :
    (setLocalIp initialDeviceState "10.0.0.5").status = Status.init ∧
    List.lookup NAME_LOCAL_IP_ADDR
        (publishEvents (setLocalIp initialDeviceState "10.0.0.5")) =
      some (TValue.str "10.0.0.5") := by
  decide

/-- Claim C9: the header declares `get_public_ip` with return type `int`
(not `void`) and a single `String` argument. -/
theorem c9_get_public_ip_signature :
    (headerDecls.find? (fun d => d.name == "get_public_ip")).map
        (fun d => (d.args, d.ret)) = some ([CType.string], CType.int) ∧
    CType.int ≠ CType.void ∧
    ([CType.string] : List CType).length = 1 := by
  decide

/-- Claim C10: the six telemetry field names, the subscription topic
`spark/device/ip` and the remote function name `get_ip` are pairwise
distinct strings. -/
theorem c10_names_pairwise_distinct :
    [NAME_STATUS, NAME_CONN_ATTEMPTS, NAME_CONN_ACCEPT, NAME_CONN_REJECT,
     NAME_LOCAL_IP_ADDR, NAME_PUBLIC_IP_ADDR, NAME_PUBLIC_IP_TOPIC,
     NAME_GET_PUBLIC_IP].Pairwise (· ≠ ·) := by
  decide

/-- Claim C3: for every 4-octet IPv4 address, parsing the dotted-quad string
produced by `ip_to_string` yields back exactly the original address. -/
theorem c3_ip_to_string_roundtrip (a : IPAddress) (h : a.Valid) :
    parseDottedQuad (ip_to_string a) = some a := by
  obtain ⟨o1, o2, o3, o4⟩ := a
  obtain ⟨h1, h2, h3, h4⟩ := h
  have e4 : parseOctet ((Nat.repr o4).data) = some (o4, []) := by
    have := parseOctet_repr o4 h4 [] head_nil_not_digit
    simpa using this
  have e3 : parseOctet
      ((Nat.repr o3).data ++ '.' :: (Nat.repr o4).data) =
      some (o3, '.' :: (Nat.repr o4).data) :=
    parseOctet_repr o3 h3 _ (head_dot_not_digit _)
  have e2 : parseOctet
      ((Nat.repr o2).data ++
        '.' :: ((Nat.repr o3).data ++ '.' :: (Nat.repr o4).data)) =
      some (o2, '.' :: ((Nat.repr o3).data ++ '.' :: (Nat.repr o4).data)) :=
    parseOctet_repr o2 h2 _ (head_dot_not_digit _)
  have e1 : parseOctet
      ((Nat.repr o1).data ++
        '.' :: ((Nat.repr o2).data ++
          '.' :: ((Nat.repr o3).data ++ '.' :: (Nat.repr o4).data))) =
      some (o1, '.' :: ((Nat.repr o2).data ++
        '.' :: ((Nat.repr o3).data ++ '.' :: (Nat.repr o4).data))) :=
    parseOctet_repr o1 h1 _ (head_dot_not_digit _)
  have hdotstr : ("." : String).data = ['.'] := rfl
  have hdata : (ip_to_string ⟨o1, o2, o3, o4⟩).data =
      (Nat.repr o1).data ++
        '.' :: ((Nat.repr o2).data ++
          '.' :: ((Nat.repr o3).data ++ '.' :: (Nat.repr o4).data)) := by
    simp [ip_to_string, String.data_append, hdotstr, List.append_assoc]
  simp only [parseDottedQuad, hdata, e1, expectDot, e2, e3, e4]

/-- Witness for C3 at the extreme addresses `0.0.0.0` and
`255.255.255.255`. -/
theorem c3_witness :
    parseDottedQuad (ip_to_string ⟨0, 0, 0, 0⟩) = some ⟨0, 0, 0, 0⟩ ∧
    parseDottedQuad (ip_to_string ⟨255, 255, 255, 255⟩) =
      some ⟨255, 255, 255, 255⟩ :=
  ⟨c3_ip_to_string_roundtrip ⟨0, 0, 0, 0⟩ (by decide),
   c3_ip_to_string_roundtrip ⟨255, 255, 255, 255⟩ (by decide)⟩

end SshRelay
